import Mathlib

/-!
Shallow embedding of src/main.py: a GeoJSON road-feature service with a
bounding-box filter.  JSON values produced by Python's json.load are
modelled by `JVal`; each HTTP handler becomes a pure function of the
module state it reads (the global `all_features` list and the on-disk
state of the configured source files).  Python exception paths that a
handler swallows with a bare except are collapsed to the skip they
cause; the one per-feature loop with no try/except (in `get_stats`)
returns `Except`, so an escaping exception is visible as an error.
-/

/-- JSON values as produced by Python's `json.load`.  Python booleans are
numeric (`bool` is a subclass of `int`), so they are a separate
constructor and coerced to 0/1 where Python would coerce them. -/
inductive JVal : Type where
  | null : JVal
  | bool (b : Bool) : JVal
  | num (q : ℚ) : JVal
  | str (s : String) : JVal
  | arr (elems : List JVal) : JVal
  | obj (fields : List (String × JVal)) : JVal

/-- Python `v.get(key, dflt)`: a value for a dict receiver; `none` models
the AttributeError a non-dict receiver raises (always swallowed by the
enclosing try/except in the code that uses this). -/
def pyGet (v : JVal) (key : String) (dflt : JVal) : Option JVal :=
  match v with
  | .obj fields => some ((fields.lookup key).getD dflt)
  | _ => none

/-- A coordinate entry usable as a number by Python's max/min and by the
float comparisons on lines 101-104: JSON numbers, and booleans
(False = 0, True = 1).  Any other value raises TypeError somewhere
between the comprehension and the comparison, and the per-feature except
turns every such path into exclusion of the feature, so `none` here
means that exclusion. -/
def asNum : JVal → Option ℚ
  | .num q => some q
  | .bool b => some (if b then 1 else 0)
  | _ => none

/-- Python `c[i]` for a coordinate pair `c`, read as a number: `c` must
index (a list of length > i; otherwise TypeError/IndexError/KeyError)
and the entry must be numeric.  A string `c` yields character strings,
which are non-numeric and also end in exclusion. -/
def coordNum (c : JVal) (i : Nat) : Option ℚ :=
  match c with
  | .arr entries =>
    match entries[i]? with
    | some v => asNum v
    | none => none
  | _ => none

/-- The comprehension `[c[i] for c in pts]`, read numerically: `none`
when any entry fails (raises, or is non-numeric and would poison the
later max/min/comparison into a TypeError). -/
def pyMapIdx (i : Nat) : List JVal → Option (List ℚ)
  | [] => some []
  | c :: rest => do
    let q ← coordNum c i
    let qs ← pyMapIdx i rest
    pure (q :: qs)

/-- Lines 74-75 (and 83-84): the longitude and latitude lists of one
point sequence. -/
def linePoints (pts : List JVal) : Option (List ℚ × List ℚ) := do
  let lngs ← pyMapIdx 0 pts
  let lats ← pyMapIdx 1 pts
  pure (lngs, lats)

/-- Lines 77-79: MultiLineString flattening, one line at a time,
concatenating each line's points.  A string or dict line is iterated by
the comprehension: an empty one contributes nothing, a nonempty one
contributes character/key strings, which are non-numeric and end in
exclusion (`none`); any other non-list line raises (also exclusion). -/
def multiPoints : List JVal → Option (List ℚ × List ℚ)
  | [] => some ([], [])
  | line :: rest =>
    match line with
    | .arr pts => do
      let (lngs, lats) ← linePoints pts
      let (restLngs, restLats) ← multiPoints rest
      pure (lngs ++ restLngs, lats ++ restLats)
    | .str s => if s.isEmpty then multiPoints rest else none
    | .obj kvs => if kvs.isEmpty then multiPoints rest else none
    | _ => none

/-- Lines 73-75: the LineString branch.  Here and below, a non-list
coordinate payload is iterated the way Python would iterate it: an
empty string/dict yields empty lists (then excluded by the emptiness
check on line 91), a nonempty one yields non-numeric character/key
items (excluded later), and a non-iterable raises (excluded). -/
def flattenForLineString (coords : JVal) : Option (List ℚ × List ℚ) :=
  match coords with
  | .arr pts => linePoints pts
  | .str s => if s.isEmpty then some ([], []) else none
  | .obj kvs => if kvs.isEmpty then some ([], []) else none
  | _ => none

/-- Lines 76-79: the MultiLineString branch. -/
def flattenForMulti (coords : JVal) : Option (List ℚ × List ℚ) :=
  match coords with
  | .arr lines => multiPoints lines
  | .str s => if s.isEmpty then some ([], []) else none
  | .obj kvs => if kvs.isEmpty then some ([], []) else none
  | _ => none

/-- Lines 80-86: the Polygon branch — only ring index 0 is read, an
empty ring list is the `continue` on line 86. -/
def flattenForPolygon (coords : JVal) : Option (List ℚ × List ℚ) :=
  match coords with
  | .arr [] => none
  | .arr (ring0 :: _) =>
    match ring0 with
    | .arr pts => linePoints pts
    | .str s => if s.isEmpty then some ([], []) else none
    | .obj kvs => if kvs.isEmpty then some ([], []) else none
    | _ => none
  | _ => none

/-- The type-tag dispatch of lines 73-88: Python `==` between the tag
value and the three literals is only true for equal strings; any other
tag value falls through to the `continue` on line 88. -/
def flattenLngsLats (geomType : JVal) (coords : JVal) : Option (List ℚ × List ℚ) :=
  match geomType with
  | .str t =>
    if t = "LineString" then flattenForLineString coords
    else if t = "MultiLineString" then flattenForMulti coords
    else if t = "Polygon" then flattenForPolygon coords
    else none
  | _ => none

/-- Lines 65-67 plus the flattening: read geometry, coordinates and type
tag off the feature (each `.get` raising on a non-dict receiver, which
the per-feature except turns into exclusion), then flatten. -/
def featureFlatten (feature : JVal) : Option (List ℚ × List ℚ) := do
  let geometry ← pyGet feature ("geometry") (.obj [])
  let coords ← pyGet geometry ("coordinates") (.arr [])
  let geomType ← pyGet geometry ("type") (.str "")
  flattenLngsLats geomType coords

/-- Lines 91-98: the emptiness guard and the derived feature bounding
box (max lat, min lat, max lng, min lng); `none` means the feature is
skipped. -/
def featureBBox (feature : JVal) : Option (ℚ × ℚ × ℚ × ℚ) := do
  let (lngs, lats) ← featureFlatten feature
  match lngs, lats with
  | lng0 :: lngRest, lat0 :: latRest =>
    pure (latRest.foldl max lat0, latRest.foldl min lat0,
          lngRest.foldl max lng0, lngRest.foldl min lng0)
  | _, _ => none

/-- Lines 100-104: the inclusive axis-aligned intersection test of the
feature's derived bounding box against the query box; a feature with no
derived box (skipped/excluded) never matches. -/
def bboxMatch (north south east west : ℚ) (feature : JVal) : Bool :=
  match featureBBox feature with
  | some (fN, fS, fE, fW) =>
    decide (fS ≤ north) && decide (fN ≥ south) &&
      decide (fW ≤ east) && decide (fE ≥ west)
  | none => false

/-- The JSON body returned by the `/geojson` route. -/
structure GeojsonResponse where
  features : List JVal
  total_in_bbox : ℕ
  total_searched : ℕ
  bbox_north : ℚ
  bbox_south : ℚ
  bbox_east : ℚ
  bbox_west : ℚ

/-- `get_geojson` (src/main.py lines 52-124) as a function of the
collection snapshot read by its loop and the four query parameters:
the loop appending matching features to `filtered` is a filter. -/
def get_geojson (all_features : List JVal) (north south east west : ℚ) :
    GeojsonResponse :=
  let filtered := all_features.filter (bboxMatch north south east west)
  { features := filtered
    total_in_bbox := filtered.length
    total_searched := all_features.length
    bbox_north := north
    bbox_south := south
    bbox_east := east
    bbox_west := west }

/-- The state of one configured source file on disk at some moment:
absent (`os.path.exists` is false), present but unreadable or not valid
JSON (open or `json.load` raises), or present and parsed to a JSON
document. -/
inductive SourceState where
  | missing : SourceState
  | readError : SourceState
  | doc (data : JVal) : SourceState

/-- Lines 39-40: `data.get("features", [])` followed by
`all_features.extend(features)` — the items one source contributes.  A
missing or unreadable/malformed file contributes nothing (skipped with a
log).  A non-dict document raises at `.get` (caught by the per-file
try, zero items).  A `features` value that is not a list is iterated by
`extend`: a string contributes its characters, a dict its keys, and any
non-iterable raises before anything is added (caught, zero items). -/
def sourceFeatures : SourceState → List JVal
  | .missing => []
  | .readError => []
  | .doc data =>
    match data with
    | .obj fields =>
      match (fields.lookup ("features")).getD (.arr []) with
      | .arr items => items
      | .str s => s.toList.map (fun ch => .str (String.mk [ch]))
      | .obj kvs => kvs.map (fun kv => .str kv.1)
      | _ => []
    | _ => []

/-- One iteration of the loop in `load_all_features` (lines 34-45): the
published global grows by the source's contribution. -/
def loadStep (acc : List JVal) (s : SourceState) : List JVal :=
  acc ++ sourceFeatures s

/-- `load_all_features` (src/main.py lines 30-47): the value of the
global `all_features` once the load completes.  Line 32 rebinds the
global to a fresh empty list, discarding the previous collection `old`
(which is therefore unused on the right-hand side, exactly as in the
source). -/
def load_all_features (old : List JVal) (sources : List SourceState) :
    List JVal :=
  let _ := old
  sources.foldl loadStep []

/-- The successive values readable through the module global
`all_features` while `load_all_features` runs, starting from the fresh
empty list published by line 32; each loop iteration's `extend` grows
the already-published list in place, so a concurrent reader of the
global can observe any of these states. -/
def loadStatesFrom (acc : List JVal) : List SourceState → List (List JVal)
  | [] => [acc]
  | s :: rest => acc :: loadStatesFrom (loadStep acc s) rest

/-- The full trace of published collection states during one run of
`load_all_features` (after line 32 has replaced the old collection). -/
def load_states (sources : List SourceState) : List (List JVal) :=
  loadStatesFrom [] sources

/-- The five-key dict `color_counts` of `get_stats` (line 151). -/
structure StatsCounts where
  red : ℕ
  blue : ℕ
  yellow : ℕ
  green : ℕ
  unknown : ℕ

/-- The five keys of `color_counts`, as a bucket tag. -/
inductive Bucket where
  | red : Bucket
  | blue : Bucket
  | yellow : Bucket
  | green : Bucket
  | unknown : Bucket
deriving DecidableEq

/-- The dispatch `if color in color_counts: color_counts[color] += 1
else: color_counts["unknown"] += 1` (lines 155-158): a string equal to
one of the four color keys bumps that key, the string key `unknown`
and every other hashable value bump `unknown`. -/
def bucketOf : JVal → Bucket
  | .str s =>
    if s = "red" then .red
    else if s = "blue" then .blue
    else if s = "yellow" then .yellow
    else if s = "green" then .green
    else .unknown
  | _ => .unknown

/-- Bump the counter of one bucket. -/
def bump (counts : StatsCounts) : Bucket → StatsCounts
  | .red => { counts with red := counts.red + 1 }
  | .blue => { counts with blue := counts.blue + 1 }
  | .yellow => { counts with yellow := counts.yellow + 1 }
  | .green => { counts with green := counts.green + 1 }
  | .unknown => { counts with unknown := counts.unknown + 1 }

/-- Hashability of a color value: `color in color_counts` raises
TypeError for Python lists and dicts (unhashable), and `get_stats` has
no try/except to catch it. -/
def hashable : JVal → Bool
  | .arr _ => false
  | .obj _ => false
  | _ => true

/-- Line 154 plus the hashability requirement of line 155:
`feature.get("properties", {}).get("color", "unknown")`.  `none` models
an exception escaping the loop (non-dict feature, non-dict properties
value, or unhashable color value) — `get_stats` does not catch it. -/
def statColor (feature : JVal) : Option JVal := do
  let props ← pyGet feature ("properties") (.obj [])
  let color ← pyGet props ("color") (.str ("unknown"))
  if hashable color then pure color else none

/-- The tallying loop of `get_stats` (lines 153-158);
`Except.error ()` is an uncaught exception aborting the request. -/
def colorLoop : StatsCounts → List JVal → Except Unit StatsCounts
  | counts, [] => .ok counts
  | counts, f :: rest =>
    match statColor f with
    | none => .error ()
    | some c => colorLoop (bump counts (bucketOf c)) rest

/-- Does the configured source path currently exist on disk
(`os.path.exists`)?  A file that exists but cannot be read or parsed
still exists. -/
def sourceExists : SourceState → Bool
  | .missing => false
  | .readError => true
  | .doc _ => true

/-- `len([f for f in geojson_files if os.path.exists(f)])` (lines 145,
164, 170, 194): the number of configured source paths present on disk
at response time. -/
def countAvailable (sources : List SourceState) : ℕ :=
  (sources.filter sourceExists).length

/-- The JSON body returned by the `/stats` route. -/
structure StatsResponse where
  total_features : ℕ
  color_distribution : StatsCounts
  files_configured : ℕ
  files_loaded : ℕ

/-- `get_stats` (src/main.py lines 148-165) as a function of the current
collection and the current on-disk source state; `Except.error ()` is an
exception escaping the handler (surfaced as a server error by the HTTP
layer). -/
def get_stats (all_features : List JVal) (sources : List SourceState) :
    Except Unit StatsResponse :=
  match colorLoop ⟨0, 0, 0, 0, 0⟩ all_features with
  | .error e => .error e
  | .ok counts =>
    .ok { total_features := all_features.length
          color_distribution := counts
          files_configured := sources.length
          files_loaded := countAvailable sources }

/-- The JSON body returned by the `/health` route. -/
structure HealthResponse where
  status : String
  features_loaded : ℕ
  files_available : ℕ
  files_configured : ℕ

/-- `health` (src/main.py lines 167-177): status from the current
on-disk availability count, feature count from the current
collection. -/
def health (all_features : List JVal) (sources : List SourceState) :
    HealthResponse :=
  let files_available := countAvailable sources
  { status := if files_available > 0 then ("healthy") else ("error")
    features_loaded := all_features.length
    files_available := files_available
    files_configured := sources.length }

/-- The JSON body returned by the `/reload` route. -/
structure ReloadResponse where
  status : String
  total_features : ℕ
  files_attempted : ℕ
  files_loaded : ℕ

/-- `reload_features` (src/main.py lines 137-146): run the load against
the current on-disk state, then report on the freshly loaded
collection. -/
def reload_features (old : List JVal) (sources : List SourceState) :
    ReloadResponse :=
  let all_features := load_all_features old sources
  { status := ("reloaded")
    total_features := all_features.length
    files_attempted := sources.length
    files_loaded := countAvailable sources }

/-- A well-formed numeric coordinate pair `[lng, lat]`. -/
def ratPoint (p : ℚ × ℚ) : JVal := .arr [.num p.1, .num p.2]

/-- The statistics bucket a feature falls in, when its color is
readable without an exception. -/
def colorBucketOf (f : JVal) : Option Bucket := (statColor f).map bucketOf

/-- The number of features of a collection falling in one statistics
bucket. -/
def specCount (b : Bucket) (feats : List JVal) : ℕ :=
  feats.countP (fun f => decide (colorBucketOf f = some b))

/-- Concrete example feature: the spec's LineString with coordinates
[[10,20],[12,22]]. -/
def fC1 : JVal :=
  .obj [(("geometry"),
    .obj [(("type"), .str ("LineString")),
          (("coordinates"),
            .arr [.arr [.num 10, .num 20], .arr [.num 12, .num 22]])])]

/-- Concrete old collection for the load-trace example. -/
def oldC4 : List JVal := [.num 3]

/-- Concrete two-source on-disk state, one feature per source. -/
def srcsC4 : List SourceState :=
  [.doc (.obj [(("features"), .arr [.num 1])]),
   .doc (.obj [(("features"), .arr [.num 2])])]

/-- Concrete feature whose color value is a JSON array: unhashable in
Python, so `color in color_counts` raises TypeError. -/
def badColorFeature : JVal :=
  .obj [(("properties"), .obj [(("color"), .arr [])])]

/-- Concrete Polygon feature with an empty ring list. -/
def fC2 : JVal :=
  .obj [(("geometry"),
    .obj [(("type"), .str ("Polygon")), (("coordinates"), .arr [])])]

/-! ## Helper lemmas -/

theorem pyMapIdx_ratPoint_fst (ps : List (ℚ × ℚ)) :
    pyMapIdx 0 (ps.map ratPoint) = some (ps.map Prod.fst) := by
  induction ps with
  | nil => rfl
  | cons p rest ih => simp [pyMapIdx, ratPoint, coordNum, asNum, ih]

theorem pyMapIdx_ratPoint_snd (ps : List (ℚ × ℚ)) :
    pyMapIdx 1 (ps.map ratPoint) = some (ps.map Prod.snd) := by
  induction ps with
  | nil => rfl
  | cons p rest ih => simp [pyMapIdx, ratPoint, coordNum, asNum, ih]

theorem linePoints_ratPoint (ps : List (ℚ × ℚ)) :
    linePoints (ps.map ratPoint) = some (ps.map Prod.fst, ps.map Prod.snd) := by
  simp [linePoints, pyMapIdx_ratPoint_fst, pyMapIdx_ratPoint_snd]

theorem multiPoints_ratPoint (lss : List (List (ℚ × ℚ))) :
    multiPoints (lss.map (fun l => .arr (l.map ratPoint)))
      = some ((lss.map (fun l => l.map Prod.fst)).flatten,
              (lss.map (fun l => l.map Prod.snd)).flatten) := by
  induction lss with
  | nil => rfl
  | cons l rest ih => simp [multiPoints, linePoints_ratPoint, ih]

theorem featureBBox_eq_none_of_flatten (f : JVal)
    (h : featureFlatten f = none ∨
      ∃ lngs lats, featureFlatten f = some (lngs, lats) ∧
        (lngs = [] ∨ lats = [])) :
    featureBBox f = none := by
  rcases h with h | ⟨lngs, lats, h, hempty⟩
  · simp [featureBBox, h]
  · rcases hempty with rfl | rfl
    · simp [featureBBox, h]
    · cases lngs <;> simp [featureBBox, h]

theorem bboxMatch_eq_false_of_none (f : JVal) (h : featureBBox f = none)
    (north south east west : ℚ) : bboxMatch north south east west f = false := by
  simp [bboxMatch, h]

theorem foldl_loadStep_extends (srcs : List SourceState) :
    ∀ acc : List JVal, ∃ rest, List.foldl loadStep acc srcs = acc ++ rest := by
  induction srcs with
  | nil => exact fun acc => ⟨[], by simp⟩
  | cons s rest ih =>
    intro acc
    obtain ⟨r, hr⟩ := ih (loadStep acc s)
    refine ⟨sourceFeatures s ++ r, ?_⟩
    rw [List.foldl_cons, hr]
    simp [loadStep]

theorem loadStatesFrom_extends (srcs : List SourceState) :
    ∀ acc : List JVal, ∀ st ∈ loadStatesFrom acc srcs,
      ∃ rest, st ++ rest = List.foldl loadStep acc srcs := by
  induction srcs with
  | nil =>
    intro acc st hst
    simp [loadStatesFrom] at hst
    subst hst
    exact ⟨[], by simp⟩
  | cons s rest ih =>
    intro acc st hst
    rw [loadStatesFrom, List.mem_cons] at hst
    rcases hst with rfl | hst
    · obtain ⟨r, hr⟩ := foldl_loadStep_extends rest (loadStep st s)
      refine ⟨sourceFeatures s ++ r, ?_⟩
      rw [List.foldl_cons, hr]
      simp [loadStep]
    · exact ih (loadStep acc s) st hst

theorem colorLoop_spec (feats : List JVal) :
    ∀ counts : StatsCounts,
      (∀ f ∈ feats, (statColor f).isSome = true) →
      ∃ r, colorLoop counts feats = Except.ok r ∧
        r.red = counts.red + specCount .red feats ∧
        r.blue = counts.blue + specCount .blue feats ∧
        r.yellow = counts.yellow + specCount .yellow feats ∧
        r.green = counts.green + specCount .green feats ∧
        r.unknown = counts.unknown + specCount .unknown feats := by
  induction feats with
  | nil => exact fun counts _ => ⟨counts, rfl, by simp [specCount]⟩
  | cons f rest ih =>
    intro counts h
    have hf : (statColor f).isSome = true := h f (List.mem_cons_self f rest)
    obtain ⟨c, hc⟩ := Option.isSome_iff_exists.mp hf
    obtain ⟨r, hr, h1, h2, h3, h4, h5⟩ :=
      ih (bump counts (bucketOf c)) (fun g hg => h g (List.mem_cons_of_mem f hg))
    refine ⟨r, by simp [colorLoop, hc, hr], ?_, ?_, ?_, ?_, ?_⟩ <;>
      cases hb : bucketOf c <;>
        simp [specCount, List.countP_cons, colorBucketOf, hc, hb, bump,
          h1, h2, h3, h4, h5] <;> omega

theorem specCount_sum (feats : List JVal)
    (h : ∀ f ∈ feats, (statColor f).isSome = true) :
    specCount .red feats + specCount .blue feats + specCount .yellow feats +
      specCount .green feats + specCount .unknown feats = feats.length := by
  induction feats with
  | nil => simp [specCount]
  | cons f rest ih =>
    have hf : (statColor f).isSome = true := h f (List.mem_cons_self f rest)
    obtain ⟨c, hc⟩ := Option.isSome_iff_exists.mp hf
    have := ih (fun g hg => h g (List.mem_cons_of_mem f hg))
    cases hb : bucketOf c <;>
      simp [specCount, List.countP_cons, colorBucketOf, hc, hb] at this ⊢ <;>
        omega

/-! ## Claim theorems -/

/-- Claim C1: for every feature in the collection and every query box,
including degenerate/inverted boxes, the bbox query includes the feature
iff its derived bounding box (max lat, min lat, max lng, min lng)
satisfies the inclusive overlap test, and no feature failing the test
(or lacking a derived box) is returned. -/
theorem C1_bbox_inclusive_overlap (feats : List JVal)
    (north south east west : ℚ) (f : JVal) (fN fS fE fW : ℚ)
    (hmem : f ∈ feats) (hbox : featureBBox f = some (fN, fS, fE, fW)) :
    (f ∈ (get_geojson feats north south east west).features ↔
      (fS ≤ north ∧ fN ≥ south ∧ fW ≤ east ∧ fE ≥ west)) ∧
    ∀ g ∈ (get_geojson feats north south east west).features,
      ∃ gN gS gE gW, featureBBox g = some (gN, gS, gE, gW) ∧
        gS ≤ north ∧ gN ≥ south ∧ gW ≤ east ∧ gE ≥ west := by
  constructor
  · simp [get_geojson, List.mem_filter, hmem, bboxMatch, hbox, and_assoc]
  · intro g hg
    simp only [get_geojson, List.mem_filter] at hg
    obtain ⟨-, hmatch⟩ := hg
    unfold bboxMatch at hmatch
    cases hbg : featureBBox g with
    | none => rw [hbg] at hmatch; simp at hmatch
    | some box =>
      obtain ⟨gN, gS, gE, gW⟩ := box
      rw [hbg] at hmatch
      simp only [Bool.and_eq_true, decide_eq_true_eq] at hmatch
      exact ⟨gN, gS, gE, gW, rfl, hmatch.1.1.1, hmatch.1.1.2, hmatch.1.2, hmatch.2⟩

/-- Witness for C1: the spec's example LineString [[10,20],[12,22]] is
included for the query box north=25, south=15, east=15, west=5. -/
theorem C1_witness : fC1 ∈ (get_geojson [fC1] 25 15 15 5).features :=
  ((C1_bbox_inclusive_overlap [fC1] 25 15 15 5 fC1 22 20 12 10
      (List.mem_singleton.mpr rfl) rfl).1).mpr (by norm_num)

/-- Claim C2: the bbox query flattens coordinates by geometry type tag —
LineString points directly, MultiLineString as the concatenation over
all lines, Polygon from ring index 0 only; a Polygon with an empty ring
list, any other geometry type tag, and a feature whose flattened
longitude or latitude list is empty are each excluded from the result
(no error can arise: all embedded functions are total, matching the
swallowed exceptions in the code). -/
theorem C2_geometry_flattening :
    (∀ ps : List (ℚ × ℚ),
      flattenLngsLats (.str ("LineString")) (.arr (ps.map ratPoint))
        = some (ps.map Prod.fst, ps.map Prod.snd)) ∧
    (∀ lss : List (List (ℚ × ℚ)),
      flattenLngsLats (.str ("MultiLineString"))
          (.arr (lss.map (fun l => .arr (l.map ratPoint))))
        = some ((lss.map (fun l => l.map Prod.fst)).flatten,
                (lss.map (fun l => l.map Prod.snd)).flatten)) ∧
    (∀ (r0 : List (ℚ × ℚ)) (rest : List JVal),
      flattenLngsLats (.str ("Polygon")) (.arr (.arr (r0.map ratPoint) :: rest))
        = some (r0.map Prod.fst, r0.map Prod.snd)) ∧
    flattenLngsLats (.str ("Polygon")) (.arr []) = none ∧
    (∀ (t : String) (coords : JVal), t ≠ "LineString" →
      t ≠ "MultiLineString" → t ≠ "Polygon" →
      flattenLngsLats (.str t) coords = none) ∧
    (∀ (f : JVal) (feats : List JVal) (north south east west : ℚ),
      (featureFlatten f = none ∨
        ∃ lngs lats, featureFlatten f = some (lngs, lats) ∧
          (lngs = [] ∨ lats = [])) →
      f ∉ (get_geojson feats north south east west).features) := by
  refine ⟨?_, ?_, ?_, rfl, ?_, ?_⟩
  · intro ps
    simp [flattenLngsLats, flattenForLineString, linePoints_ratPoint]
  · intro lss
    simp [flattenLngsLats, flattenForMulti, multiPoints_ratPoint]
  · intro r0 rest
    simp [flattenLngsLats, flattenForPolygon, linePoints_ratPoint]
  · intro t coords h1 h2 h3
    simp [flattenLngsLats, h1, h2, h3]
  · intro f feats north south east west h
    have hnone := featureBBox_eq_none_of_flatten f h
    have hfalse := bboxMatch_eq_false_of_none f hnone north south east west
    simp [get_geojson, List.mem_filter, hfalse]

/-- Witness for C2: an unsupported type tag yields no flattening, and a
Polygon feature with an empty ring list is not in any query result. -/
theorem C2_witness :
    flattenLngsLats (.str ("Point")) (.arr []) = none ∧
    fC2 ∉ (get_geojson [fC2] 1 0 1 0).features :=
  ⟨C2_geometry_flattening.2.2.2.2.1 ("Point") (.arr [])
      (by decide) (by decide) (by decide),
   C2_geometry_flattening.2.2.2.2.2 fC2 [fC2] 1 0 1 0 (Or.inl rfl)⟩

/-- Claim C3: the bbox query result is an ordered subsequence of the
collection holding the original feature records in their original
relative order; total_in_bbox is the number of returned features,
total_searched is the collection size, and the query box is echoed
unchanged. -/
theorem C3_result_shape (feats : List JVal) (north south east west : ℚ) :
    List.Sublist (get_geojson feats north south east west).features feats ∧
    (get_geojson feats north south east west).total_in_bbox
      = (get_geojson feats north south east west).features.length ∧
    (get_geojson feats north south east west).total_searched
      = feats.length ∧
    (get_geojson feats north south east west).bbox_north = north ∧
    (get_geojson feats north south east west).bbox_south = south ∧
    (get_geojson feats north south east west).bbox_east = east ∧
    (get_geojson feats north south east west).bbox_west = west := by
  refine ⟨?_, rfl, rfl, rfl, rfl, rfl, rfl⟩
  exact List.filter_sublist feats

/-- Counterexample for C4 as stated: while a load with two one-feature
sources runs, the published global passes through the state [num 1],
which is neither the full old collection [num 3] nor the full new
collection [num 1, num 2]. -/
theorem C4_counterexample :
    [JVal.num 1] ∈ load_states srcsC4 ∧
    [JVal.num 1] ≠ oldC4 ∧
    [JVal.num 1] ≠ load_all_features oldC4 srcsC4 := by
  refine ⟨?_, ?_, ?_⟩
  · have h : load_states srcsC4 = [[], [.num 1], [.num 1, .num 2]] := rfl
    rw [h]
    exact List.mem_cons_of_mem _ (List.mem_cons_self _ _)
  · intro h
    have h3 : (1 : ℚ) = 3 := congrArg (fun l => match l with
      | [JVal.num q] => q
      | _ => 0) h
    norm_num at h3
  · intro h
    have h2 : load_all_features oldC4 srcsC4 = [.num 1, .num 2] := rfl
    rw [h2] at h
    have := congrArg List.length h
    simp at this

/-- Claim C4 (amended): load() publishes a fresh empty collection before
processing the sources and then appends each source's features to the
already-published collection in place, so a concurrent reader may
observe any per-source prefix of the new collection (including the
empty one); every observable state during the load is such a prefix of
the final collection. -/
theorem C4_amended_prefix_states (old : List JVal) (srcs : List SourceState) :
    ∀ st ∈ load_states srcs, ∃ rest, st ++ rest = load_all_features old srcs :=
  fun st hst => loadStatesFrom_extends srcs [] st hst

/-- Witness for C4 (amended): the empty published state observable
during the concrete two-source load extends to the final collection. -/
theorem C4_witness :
    ∃ rest, ([] : List JVal) ++ rest = load_all_features oldC4 srcsC4 :=
  C4_amended_prefix_states oldC4 srcsC4 [] (List.mem_cons_self _ _)

/-- Claim C5: a feature with no derivable bounding box (malformed in any
way) is silently excluded by the bbox query, and the result on the rest
of the collection is exactly the result without that feature. -/
theorem C5_malformed_skipped (l1 l2 : List JVal) (f : JVal)
    (north south east west : ℚ) (hf : featureBBox f = none) :
    (get_geojson (l1 ++ f :: l2) north south east west).features
      = (get_geojson (l1 ++ l2) north south east west).features ∧
    (get_geojson (l1 ++ f :: l2) north south east west).total_in_bbox
      = (get_geojson (l1 ++ l2) north south east west).total_in_bbox := by
  have hmatch := bboxMatch_eq_false_of_none f hf north south east west
  constructor
  · simp [get_geojson, List.filter_append, List.filter_cons, hmatch]
  · simp [get_geojson, List.filter_append, List.filter_cons, hmatch]

/-- Witness for C5: a JSON null in the middle of a collection leaves the
query result unchanged. -/
theorem C5_witness :
    featureBBox JVal.null = none ∧
    (get_geojson ([] ++ JVal.null :: []) 1 0 1 0).features
      = (get_geojson ([] ++ ([] : List JVal)) 1 0 1 0).features :=
  ⟨rfl, (C5_malformed_skipped [] [] JVal.null 1 0 1 0 rfl).1⟩

/-- Counterexample for C6 as stated: get_stats has no per-feature
try/except, so a collection holding the non-dict feature 5 makes the
stats request raise (a request-level error) instead of discarding the
item. -/
theorem C6_counterexample : get_stats [JVal.num 5] [] = Except.error () := rfl

/-- Claim C6 (amended): load() skips a missing or unreadable/malformed
source and continues with the remaining sources unchanged, and the bbox
query recovers every per-feature failure by discarding that feature;
get_stats, however, does not catch per-feature errors. -/
theorem C6_amended_recovery (old : List JVal)
    (l1 l2 : List SourceState) (bad : SourceState)
    (hbad : bad = SourceState.missing ∨ bad = SourceState.readError) :
    load_all_features old (l1 ++ bad :: l2)
      = load_all_features old (l1 ++ l2) ∧
    ∀ f : JVal, featureBBox f = none →
      ∀ north south east west : ℚ,
        bboxMatch north south east west f = false := by
  constructor
  · have hskip : sourceFeatures bad = [] := by rcases hbad with rfl | rfl <;> rfl
    simp [load_all_features, List.foldl_append, List.foldl_cons, loadStep, hskip]
  · exact fun f hf north south east west =>
      bboxMatch_eq_false_of_none f hf north south east west

/-- Witness for C6 (amended): a missing source changes nothing, and the
null feature never matches. -/
theorem C6_witness :
    load_all_features [] ([] ++ SourceState.missing :: [])
      = load_all_features [] ([] ++ []) ∧
    bboxMatch 0 0 0 0 JVal.null = false :=
  ⟨(C6_amended_recovery [] [] [] SourceState.missing (Or.inl rfl)).1,
   (C6_amended_recovery [] [] [] SourceState.missing (Or.inl rfl)).2
     JVal.null rfl 0 0 0 0⟩

/-- Counterexample for C7 as stated: a feature whose color value is a
JSON array (outside the fixed set) is not tallied under unknown — the
stats computation raises instead. -/
theorem C7_counterexample :
    get_stats [badColorFeature] [] = Except.error () := rfl

/-- Claim C7 (amended): for every collection whose features are
stats-processable (reading the color cannot raise), colorStats tallies
each feature whose color is absent or outside {red, blue, yellow,
green} under unknown, each feature with a color in the set under that
color, and the five counts sum to total_features. -/
theorem C7_amended_color_stats (feats : List JVal) (srcs : List SourceState)
    (h : ∀ f ∈ feats, (statColor f).isSome = true) :
    ∃ r, get_stats feats srcs = Except.ok r ∧
      r.total_features = feats.length ∧
      r.color_distribution.red = specCount .red feats ∧
      r.color_distribution.blue = specCount .blue feats ∧
      r.color_distribution.yellow = specCount .yellow feats ∧
      r.color_distribution.green = specCount .green feats ∧
      r.color_distribution.unknown = specCount .unknown feats ∧
      r.color_distribution.red + r.color_distribution.blue +
        r.color_distribution.yellow + r.color_distribution.green +
        r.color_distribution.unknown = r.total_features := by
  obtain ⟨c, hc, h1, h2, h3, h4, h5⟩ := colorLoop_spec feats ⟨0, 0, 0, 0, 0⟩ h
  refine ⟨{ total_features := feats.length, color_distribution := c,
            files_configured := srcs.length,
            files_loaded := countAvailable srcs },
          by simp [get_stats, hc], rfl, ?_, ?_, ?_, ?_, ?_, ?_⟩
  · simpa using h1
  · simpa using h2
  · simpa using h3
  · simpa using h4
  · simpa using h5
  · rw [h1, h2, h3, h4, h5]
    simpa using specCount_sum feats h

/-- Witness for C7 (amended): a single feature with no properties is
tallied under unknown and the counts sum to 1. -/
theorem C7_witness :
    ∃ r, get_stats [JVal.obj []] ([] : List SourceState) = Except.ok r ∧
      r.total_features = [JVal.obj []].length ∧
      r.color_distribution.red = specCount .red [JVal.obj []] ∧
      r.color_distribution.blue = specCount .blue [JVal.obj []] ∧
      r.color_distribution.yellow = specCount .yellow [JVal.obj []] ∧
      r.color_distribution.green = specCount .green [JVal.obj []] ∧
      r.color_distribution.unknown = specCount .unknown [JVal.obj []] ∧
      r.color_distribution.red + r.color_distribution.blue +
        r.color_distribution.yellow + r.color_distribution.green +
        r.color_distribution.unknown = r.total_features :=
  C7_amended_color_stats [JVal.obj []] []
    (by intro f hf; rw [List.mem_singleton] at hf; subst hf; rfl)

/-- Claim C8: health() reports status error iff zero configured sources
are available on disk, healthy otherwise, and the status is independent
of the loaded collection (it reflects current file availability, not
cached data). -/
theorem C8_health_status (feats : List JVal) (srcs : List SourceState) :
    ((health feats srcs).status = ("error") ↔ countAvailable srcs = 0) ∧
    ((health feats srcs).status = ("healthy") ↔ 0 < countAvailable srcs) ∧
    ∀ feats2 : List JVal,
      (health feats srcs).status = (health feats2 srcs).status := by
  have hne : ("healthy" : String) ≠ ("error") := by decide
  by_cases h : 0 < countAvailable srcs
  · have hs : (health feats srcs).status = ("healthy") := by simp [health, h]
    refine ⟨?_, ?_, fun feats2 => rfl⟩
    · rw [hs]
      exact iff_of_false hne (by omega)
    · rw [hs]
      exact iff_of_true rfl h
  · have h0 : countAvailable srcs = 0 := by omega
    have hs : (health feats srcs).status = ("error") := by simp [health, h]
    refine ⟨?_, ?_, fun feats2 => rfl⟩
    · rw [hs]
      exact iff_of_true rfl h0
    · rw [hs]
      exact iff_of_false (fun he => hne he.symm) h

/-- Claim C9: reloading on an unchanged on-disk state is idempotent —
running the load twice yields exactly the collection (same features,
same order) that running it once yields, because line 32 rebuilds from
an empty list instead of appending to the previous collection. -/
theorem C9_reload_idempotent (old : List JVal) (srcs : List SourceState) :
    load_all_features (load_all_features old srcs) srcs
      = load_all_features old srcs := rfl

/-- Claim C10: files_loaded in the reload and stats responses and
files_available in the health response all count the configured paths
that exist on disk at response time, independent of parse success: a
source that exists but failed to parse still counts, a missing one does
not. -/
theorem C10_files_loaded_counts (old feats : List JVal)
    (srcs : List SourceState) :
    (reload_features old srcs).files_loaded = countAvailable srcs ∧
    (health feats srcs).files_available = countAvailable srcs ∧
    (∀ r, get_stats feats srcs = Except.ok r →
      r.files_loaded = countAvailable srcs) ∧
    countAvailable (SourceState.readError :: srcs)
      = countAvailable srcs + 1 ∧
    countAvailable (SourceState.missing :: srcs) = countAvailable srcs := by
  refine ⟨rfl, rfl, ?_, ?_, ?_⟩
  · intro r hr
    unfold get_stats at hr
    cases hcl : colorLoop ⟨0, 0, 0, 0, 0⟩ feats with
    | error e => rw [hcl] at hr; simp at hr
    | ok counts =>
      rw [hcl] at hr
      simp only [Except.ok.injEq] at hr
      subst hr
      rfl
  · simp [countAvailable, List.filter_cons, sourceExists]
  · simp [countAvailable, List.filter_cons, sourceExists]

/-- Witness for C10: a single existing-but-unreadable source counts as
loaded in the stats response. -/
theorem C10_witness :
    ∃ r, get_stats [] [SourceState.readError] = Except.ok r ∧
      r.files_loaded = countAvailable [SourceState.readError] := by
  refine ⟨⟨0, ⟨0, 0, 0, 0, 0⟩, 1, 1⟩, rfl, ?_⟩
  exact (C10_files_loaded_counts [] [] [SourceState.readError]).2.2.1 _ rfl
